import Mathlib

/-!
Verification development for the wrist-mounted CM4 multitool touch UI.

Shallow embedding of the Python sources:
  * `touch_ui.py`       — core UI: `TouchHandler._touch_loop` (gesture
    classifier), `ASCIICanvas` (double-buffered character grid),
    the widget classes (`Button`, `VideoButton`, `MainMenuButton`,
    `ScrollBar`, `Slider`), `Screen.handle_touch`, and the hand-off
    screens' `exit()` methods.
  * `touch_uxplay_wrapper.py` — the uxplay wrapper's gesture loop.

Modelling conventions:
  * Python floats (all time values and the threshold literals 0.2, 0.3,
    0.5, 0.6, 1.0, 2.0, and products such as `max_x * 0.1 = 80.0`) are
    modelled as exact rationals; coordinates are integers as in evdev.
  * Python's `int(...)` truncation toward zero on a rational is `pyInt`.
  * `time.time()` is modelled by a timestamp carried on each event; the
    source reads the clock up to twice while handling one event, the
    model uses the single event timestamp for both reads.
  * Stateful methods become state-passing functions; terminal writes and
    subprocess signals become explicit output lists.
-/

/-- Python `int(q)`: truncation toward zero of a rational. -/
def pyInt (q : ℚ) : ℤ := if 0 ≤ q then ⌊q⌋ else ⌈q⌉

theorem pyInt_le_of_le (q : ℚ) (b : ℤ) (h : q ≤ (b : ℚ)) : pyInt q ≤ b := by
  unfold pyInt
  split
  · exact_mod_cast (Int.floor_le q).trans h
  · exact Int.ceil_le.mpr h

theorem le_pyInt_of_le (q : ℚ) (a : ℤ) (h : (a : ℚ) ≤ q) : a ≤ pyInt q := by
  unfold pyInt
  split
  · exact Int.le_floor.mpr h
  · exact_mod_cast h.trans (Int.le_ceil q)

/-- Python `range(a, b)` over integers, as the list `[a, a+1, ..., b-1]`. -/
def intRange (a b : ℤ) : List ℤ :=
  (List.range (b - a).toNat).map (fun n : ℕ => a + (n : ℤ))

/-! ## Gesture classifier of `touch_ui.py` (`TouchHandler._touch_loop`)

The callback gesture names are the strings
`'press' 'release' 'tap' 'double_tap' 'swipe_left' 'swipe_right'
'swipe_up' 'swipe_down'`; the loop never passes any other string, in
particular there is no long-press gesture in `touch_ui.py`. -/

inductive Gesture
  | press | release | tap | double_tap
  | swipe_left | swipe_right | swipe_up | swipe_down
  deriving DecidableEq, Repr

/-- A swipe gesture (any of the four directions). -/
def Gesture.isSwipe : Gesture → Bool
  | .swipe_left | .swipe_right | .swipe_up | .swipe_down => true
  | _ => false

/-- Mutable state of `TouchHandler._touch_loop` (locals `x`, `y`,
`touching`, `swipe_start` plus the instance fields `last_tap_time`,
`tap_count`, `current_touch`).  `self.touch_callback` is assumed set
(the application always installs one before the loop runs). -/
structure THState where
  x : Option ℤ
  y : Option ℤ
  touching : Bool
  swipe_start : Option (ℤ × ℤ × ℚ)
  last_tap_time : ℚ
  tap_count : ℕ
  current_touch : Option (ℤ × ℤ)
  deriving DecidableEq, Repr

/-- Initial state: `x, y = None, None`, `touching = False`,
`swipe_start = None`, `self.last_tap_time = 0`, `self.tap_count = 0`. -/
def THState.init : THState :=
  { x := none, y := none, touching := false, swipe_start := none
    last_tap_time := 0, tap_count := 0, current_touch := none }

/-- One evdev event as seen by `_touch_loop`, with its clock reading. -/
inductive TouchEvent
  | absX (v : ℤ)
  | absY (v : ℤ)
  | tracking (v : ℤ) (t : ℚ)
  | btnTouch (down : Bool) (t : ℚ)
  | syn
  deriving DecidableEq, Repr

/-- The gesture emitted for a quick contact (`dt < 0.2`): a swipe when
the movement exceeds 10% of a screen dimension (`max_x * 0.1 = 80.0`,
`max_y * 0.1 = 48.0`), otherwise a tap. -/
def quickGesture (dx dy : ℤ) : Gesture :=
  if dx.natAbs > 80 ∨ dy.natAbs > 48 then
    if dx.natAbs > dy.natAbs then
      (if dx > 0 then .swipe_right else .swipe_left)
    else
      (if dy > 0 then .swipe_down else .swipe_up)
  else .tap

/-- One iteration of `TouchHandler._touch_loop` for one event: returns
the successor state and the list of `(gesture, x, y)` callback
invocations, in call order. -/
def touchStep (s : THState) (e : TouchEvent) : THState × List (Gesture × ℤ × ℤ) :=
  match e with
  | .absX v => ({ s with x := some v }, [])
  | .absY v => ({ s with y := some v }, [])
  | .tracking v t =>
      if 0 ≤ v then
        -- contact-down: remember swipe start if a position is known
        match s.x, s.y with
        | some xv, some yv =>
            ({ s with touching := true, swipe_start := some (xv, yv, t) }, [])
        | _, _ => ({ s with touching := true }, [])
      else
        -- contact-up
        match s.x, s.y with
        | some xv, some yv =>
            (match s.swipe_start with
             | some (sx, sy, st) =>
                 let dx := xv - sx
                 let dy := yv - sy
                 let dt := t - st
                 if dt < 0.2 then
                   -- double-tap bookkeeping, then swipe-or-tap emission
                   let withinWindow := t - s.last_tap_time < 0.5
                   let tapCount1 := if withinWindow then s.tap_count + 1 else 1
                   let emitsDouble := withinWindow ∧ tapCount1 ≥ 2
                   let tapCount2 := if emitsDouble then 0 else tapCount1
                   let dblEmits : List (Gesture × ℤ × ℤ) :=
                     if emitsDouble then [(.double_tap, xv, yv)] else []
                   ({ s with touching := false, swipe_start := none,
                             last_tap_time := t, tap_count := tapCount2 },
                    dblEmits ++ [(quickGesture dx dy, xv, yv)])
                 else
                   ({ s with touching := false, swipe_start := none },
                    [(.release, xv, yv)])
             | none => ({ s with touching := false, swipe_start := none }, []))
        | _, _ => ({ s with touching := false }, [])
  | .btnTouch down t =>
      if down then
        match s.x, s.y with
        | some xv, some yv =>
            ({ s with touching := true, swipe_start := some (xv, yv, t) },
             [(.press, xv, yv)])
        | _, _ => ({ s with touching := true }, [])
      else
        match s.x, s.y with
        | some xv, some yv => ({ s with touching := false }, [(.release, xv, yv)])
        | _, _ => ({ s with touching := false }, [])
  | .syn =>
      if s.touching then
        match s.x, s.y with
        | some xv, some yv => ({ s with current_touch := some (xv, yv) }, [])
        | _, _ => (s, [])
      else (s, [])

/-- Run the loop over a list of events, collecting all emitted gestures. -/
def touchRun (s : THState) (es : List TouchEvent) : THState × List (Gesture × ℤ × ℤ) :=
  match es with
  | [] => (s, [])
  | e :: rest =>
      let (s1, out1) := touchStep s e
      let (s2, out2) := touchRun s1 rest
      (s2, out1 ++ out2)

/-! ## Gesture loop of `touch_uxplay_wrapper.py` (`main`, lines 84-137)

This wrapper has its own near-duplicate classifier with thresholds
`dx,dy < 30 ∧ duration < 0.3` (tap), `0.6` double-tap window,
`duration > 2.0 ∧ dx,dy < 20` (long press), and a 1.0-second tap-count
timeout.  A detected double tap or long press `break`s out of the event
loop and the wrapper shuts uxplay down. -/

inductive UXAction
  | singleTap     -- print("Single tap detected")
  | doubleTapExit -- print + break: exit UXPlay
  | longPressExit -- print + break: exit UXPlay
  deriving DecidableEq, Repr

/-- Locals of the uxplay wrapper's event loop.  `exited` records that the
loop was left via `break`; `crashed` records an uncaught `TypeError`
(the source guards `start_x`/`last_x` against `None` but then subtracts
the possibly-`None` y coordinates). -/
structure UXState where
  touching : Bool
  start_x : Option ℤ
  start_y : Option ℤ
  last_x : Option ℤ
  last_y : Option ℤ
  start_time : ℚ
  last_tap_time : ℚ
  tap_count : ℕ
  exited : Bool
  crashed : Bool
  deriving DecidableEq, Repr

/-- Initial state of the wrapper loop (`touching = False`, positions
`None`, `last_tap_time = 0`, `tap_count = 0`). -/
def UXState.init : UXState :=
  { touching := false, start_x := none, start_y := none, last_x := none
    last_y := none, start_time := 0, last_tap_time := 0, tap_count := 0
    exited := false, crashed := false }

/-- One event as seen by the wrapper loop, with its clock reading. -/
inductive UXEvent
  | absX (v : ℤ)
  | absY (v : ℤ)
  | btn (down : Bool) (t : ℚ)
  deriving DecidableEq, Repr

/-- Trailing `if current_time - last_tap_time > 1.0: tap_count = 0`
executed after gesture detection on a finger-up that did not `break`. -/
def uxTapTimeout (t : ℚ) (s : UXState) : UXState :=
  if t - s.last_tap_time > 1 then { s with tap_count := 0 } else s

/-- One iteration of the uxplay wrapper's event loop. -/
def uxStep (s : UXState) (e : UXEvent) : UXState × List UXAction :=
  if s.exited ∨ s.crashed then (s, []) else
  match e with
  | .absX v => ({ s with last_x := some v }, [])
  | .absY v => ({ s with last_y := some v }, [])
  | .btn true t =>
      ({ s with touching := true, start_time := t
                start_x := s.last_x, start_y := s.last_y }, [])
  | .btn false t =>
      if s.touching then
        let s0 := { s with touching := false }
        let duration := t - s.start_time
        match s.start_x, s.last_x with
        | some sx, some lx =>
            match s.start_y, s.last_y with
            | some sy, some ly =>
                let dx := lx - sx
                let dy := ly - sy
                if dx.natAbs < 30 ∧ dy.natAbs < 30 ∧ duration < 0.3 then
                  if t - s.last_tap_time < 0.6 then
                    if s.tap_count + 1 ≥ 2 then
                      -- break before `last_tap_time = current_time`
                      ({ s0 with tap_count := s.tap_count + 1, exited := true },
                       [.doubleTapExit])
                    else
                      (uxTapTimeout t
                        { s0 with tap_count := s.tap_count + 1, last_tap_time := t },
                       [])
                  else
                    (uxTapTimeout t { s0 with tap_count := 1, last_tap_time := t },
                     [.singleTap])
                else if duration > 2 ∧ dx.natAbs < 20 ∧ dy.natAbs < 20 then
                  ({ s0 with exited := true }, [.longPressExit])
                else
                  (uxTapTimeout t s0, [])
            | _, _ =>
                -- `dy = last_y - start_y` raises TypeError on None
                ({ s0 with crashed := true }, [])
        | _, _ => (s0, [])  -- `continue`
      else (s, [])

/-! ## `ScrollBar` widget (`touch_ui.py`, lines 498-559)

The constructor clamps `total_items = max(1, total_items)` and
`visible_items = min(visible_items, self.total_items)`; the widget base
class sets `width = 3` and `visible = True`. -/

structure ScrollBar where
  x : ℤ
  y : ℤ
  width : ℤ
  height : ℤ
  visible : Bool
  total_items : ℤ
  visible_items : ℤ
  scroll_position : ℤ
  dragging : Bool
  deriving DecidableEq, Repr

/-- Constructor `ScrollBar.__init__(x, y, height, total_items, visible_items)`. -/
def ScrollBar.make (x y height total_items visible_items : ℤ) : ScrollBar :=
  { x := x, y := y, width := 3, height := height, visible := true
    total_items := max 1 total_items
    visible_items := min visible_items (max 1 total_items)
    scroll_position := 0, dragging := false }

/-- Method `ScrollBar._update_position(touch_y)`.  The terminal size read by
`stty` at call time is the explicit argument `term_rows`.  (When
`height = 0` the Python division raises and the position is left
unchanged; the rational model yields `normalized = 0`; either way the
clamping invariant below is preserved.) -/
def ScrollBar.updatePosition (sb : ScrollBar) (touch_y term_rows : ℤ) : ScrollBar :=
  let term_y := pyInt ((touch_y * term_rows : ℤ) / (480 : ℚ))
  let relative_y := term_y - sb.y
  let normalized : ℚ := max 0 (min 1 ((relative_y : ℚ) / (sb.height : ℚ)))
  let max_scroll := sb.total_items - sb.visible_items
  { sb with scroll_position := pyInt (normalized * (max_scroll : ℚ)) }

/-- Method `ScrollBar.set_position(position)`. -/
def ScrollBar.setPosition (sb : ScrollBar) (position : ℤ) : ScrollBar :=
  let max_scroll := sb.total_items - sb.visible_items
  { sb with scroll_position := max 0 (min position max_scroll) }

/-- Method `ScrollBar.handle_touch(event_type, x, y)`: press/tap start dragging
and recompute the position from the touch; release stops dragging. -/
def ScrollBar.handleTouch (sb : ScrollBar) (e : Gesture) (touch_y term_rows : ℤ) :
    ScrollBar × Bool :=
  match e with
  | .press | .tap =>
      (({ sb with dragging := true } : ScrollBar).updatePosition touch_y term_rows, true)
  | .release => ({ sb with dragging := false }, true)
  | _ => (sb, false)

/-! ## `Slider` widget (`touch_ui.py`, lines 601-651)

The widget base class sets `height = 3` and `visible = True`. -/

structure Slider where
  x : ℤ
  y : ℤ
  width : ℤ
  height : ℤ
  visible : Bool
  min_val : ℤ
  max_val : ℤ
  value : ℤ
  dragging : Bool
  deriving DecidableEq, Repr

/-- Constructor `Slider.__init__(x, y, width, min_val, max_val, value)`. -/
def Slider.make (x y width min_val max_val value : ℤ) : Slider :=
  { x := x, y := y, width := width, height := 3, visible := true
    min_val := min_val, max_val := max_val, value := value, dragging := false }

/-- Method `Slider._update_value(touch_x)` with the terminal width read by
`stty` as explicit argument `term_cols`. -/
def Slider.updateValue (sl : Slider) (touch_x term_cols : ℤ) : Slider :=
  let term_x := pyInt ((touch_x * term_cols : ℤ) / (800 : ℚ))
  let relative_x := term_x - sl.x - 1
  let normalized : ℚ := max 0 (min 1 ((relative_x : ℚ) / ((sl.width - 3 : ℤ) : ℚ)))
  let newValue := pyInt ((sl.min_val : ℚ) + normalized * ((sl.max_val - sl.min_val : ℤ) : ℚ))
  { sl with value := newValue }

/-- Method `Slider.handle_touch(event_type, x, y)`. -/
def Slider.handleTouch (sl : Slider) (e : Gesture) (touch_x term_cols : ℤ) :
    Slider × Bool :=
  match e with
  | .press | .tap =>
      (({ sl with dragging := true } : Slider).updateValue touch_x term_cols, true)
  | .release => ({ sl with dragging := false }, true)
  | _ => (sl, false)

/-! ## `ASCIICanvas` (`touch_ui.py`, lines 154-305)

The character buffers are modelled as total functions `ℤ → ℤ → Char`;
the source only ever reads and writes indices inside
`[0, height) × [0, width)` (that is exactly claim C7), so the values at
other coordinates are inert.  Terminal output is returned as an explicit
list of strings, one element per `sys.stdout.write` call. -/

structure ASCIICanvas where
  width : ℤ
  height : ℤ
  buffer : ℤ → ℤ → Char
  old_buffer : ℤ → ℤ → Char
  dirty : Bool

/-- Assignment `self.buffer[y][x] = ch` (callers guarantee the indices are in
range, as the source's guards do). -/
def ASCIICanvas.writeCell (c : ASCIICanvas) (y x : ℤ) (ch : Char) : ASCIICanvas :=
  { c with buffer := fun r cc => if r = y ∧ cc = x then ch else c.buffer r cc }

/-- Inner loop of `draw_text`: `for i, char in enumerate(text)` with the
skip/clip guards of the source. -/
def drawTextLoop (cv : ASCIICanvas) (x y : ℤ) (clip : Bool) :
    List (ℕ × Char) → ASCIICanvas
  | [] => cv
  | (i, ch) :: rest =>
      let px := x + (i : ℤ)
      if px < 0 then drawTextLoop cv x y clip rest
      else if px ≥ cv.width then
        if clip then cv else drawTextLoop cv x y clip rest
      else drawTextLoop (cv.writeCell y px ch) x y clip rest

/-- Method `ASCIICanvas.draw_text(x, y, text, clip=True)`. -/
def ASCIICanvas.drawText (cv : ASCIICanvas) (x y : ℤ) (text : List Char)
    (clip : Bool := true) : ASCIICanvas :=
  if y < 0 ∨ y ≥ cv.height then cv
  else { drawTextLoop cv x y clip text.enum with dirty := true }

/-- Border character sets of `draw_box` (`'┌─┐│└┘'` etc.); index order
is corner-TL, horizontal, corner-TR, vertical, corner-BL, corner-BR. -/
inductive BoxStyle
  | single | double | round | ascii
  deriving DecidableEq, Repr

def boxChars : BoxStyle → Char × Char × Char × Char × Char × Char
  | .single => ('┌', '─', '┐', '│', '└', '┘')
  | .double => ('╔', '═', '╗', '║', '╚', '╝')
  | .round => ('╭', '─', '╮', '│', '╰', '╯')
  | .ascii => ('+', '-', '+', '|', '+', '+')

/-- The cell assignments performed by `draw_box(x, y, w, h, style,
filled)` on a `W × H` canvas, in source order: the optional background
fill, then top line, sides, bottom line.  Each assignment appears here
exactly when its source guard (`if 0 <= idx < bound`) holds; `W` and `H`
(`self.width`, `self.height`) are constant throughout the method. -/
def boxWrites (W H x y w h : ℤ) (style : BoxStyle) (filled : Bool) :
    List (ℤ × ℤ × Char) :=
  let (c0, c1, c2, c3, c4, c5) := boxChars style
  -- fill background if requested
  (if filled then
    (intRange (max 0 y) (min (y + h) H)).flatMap (fun row =>
      (intRange (max 0 x) (min (x + w) W)).map (fun col => (row, col, '░')))
  else []) ++
  -- top line
  (if 0 ≤ y ∧ y < H then
    (if x ≥ 0 ∧ x < W then [(y, x, c0)] else []) ++
    ((intRange 1 (w - 1)).filterMap (fun i =>
      if 0 ≤ x + i ∧ x + i < W then some (y, x + i, c1) else none)) ++
    (if 0 ≤ x + w - 1 ∧ x + w - 1 < W then [(y, x + w - 1, c2)] else [])
  else []) ++
  -- sides
  ((intRange 1 (h - 1)).flatMap (fun i =>
    if 0 ≤ y + i ∧ y + i < H then
      (if 0 ≤ x ∧ x < W then [(y + i, x, c3)] else []) ++
      (if 0 ≤ x + w - 1 ∧ x + w - 1 < W then [(y + i, x + w - 1, c3)] else [])
    else [])) ++
  -- bottom line
  (if 0 ≤ y + h - 1 ∧ y + h - 1 < H then
    (if 0 ≤ x ∧ x < W then [(y + h - 1, x, c4)] else []) ++
    ((intRange 1 (w - 1)).filterMap (fun i =>
      if 0 ≤ x + i ∧ x + i < W then some (y + h - 1, x + i, c1) else none)) ++
    (if 0 ≤ x + w - 1 ∧ x + w - 1 < W then [(y + h - 1, x + w - 1, c5)] else [])
  else [])

/-- Apply a list of cell assignments in order. -/
def ASCIICanvas.applyWrites (cv : ASCIICanvas) (ws : List (ℤ × ℤ × Char)) :
    ASCIICanvas :=
  ws.foldl (fun acc rcc => acc.writeCell rcc.1 rcc.2.1 rcc.2.2) cv

/-- Method `ASCIICanvas.draw_box(x, y, w, h, style, filled)`. -/
def ASCIICanvas.drawBox (cv : ASCIICanvas) (x y w h : ℤ) (style : BoxStyle)
    (filled : Bool) : ASCIICanvas :=
  { cv.applyWrites (boxWrites cv.width cv.height x y w h style filled) with
      dirty := true }

/-- The single frame string built by `render()` when dirty: cursor-home,
then per row cursor-position + clear-line + row content, all joined and
written with one `sys.stdout.write`. -/
def frameString (cv : ASCIICanvas) : String :=
  "\x1b[H" ++ String.join ((intRange 0 cv.height).map (fun y =>
    "\x1b[" ++ toString (y + 1) ++ ";1H" ++ "\x1b[K" ++
      String.mk ((intRange 0 cv.width).map (fun x => cv.buffer y x))))

/-- Method `ASCIICanvas.render()`: returns the successor canvas and the list of
terminal writes performed (one element per `sys.stdout.write`). -/
def ASCIICanvas.render (cv : ASCIICanvas) : ASCIICanvas × List String :=
  if cv.dirty = false then (cv, [])
  else
    ({ cv with
        old_buffer := fun r cc =>
          if 0 ≤ r ∧ r < cv.height then cv.buffer r cc else cv.old_buffer r cc
        dirty := false },
     [frameString cv])

/-! ## Button-style widgets and `Screen.handle_touch`

`Button.handle_touch`, `VideoButton.handle_touch` and
`MainMenuButton.handle_touch` are behaviourally identical: `'press'`
sets the pressed flag and consumes; `'release'`/`'tap'` always clear the
pressed flag, fire the callback when it was pressed, and consume; every
other event is not consumed.  They are represented by the single
`Button` variant below (the callback itself is outside the model). -/

structure Button where
  x : ℤ
  y : ℤ
  width : ℤ
  height : ℤ
  visible : Bool
  pressed : Bool
  deriving DecidableEq, Repr

/-- Constructor `Button.__init__(x, y, text)`: `width = len(text) + 4, height = 3`. -/
def Button.make (x y : ℤ) (textLen : ℕ) : Button :=
  { x := x, y := y, width := (textLen : ℤ) + 4, height := 3
    visible := true, pressed := false }

/-- Method `Button.handle_touch(event_type, x, y)`. -/
def Button.handleTouch (b : Button) (e : Gesture) : Button × Bool :=
  match e with
  | .press => ({ b with pressed := true }, true)
  | .release | .tap => ({ b with pressed := false }, true)
  | _ => (b, false)

/-- The widget variants a `Screen` can hold (tagged union over the
source's widget classes, cf. §9 of the design). -/
inductive Widget
  | button (b : Button)
  | scrollBar (sb : ScrollBar)
  | slider (sl : Slider)
  deriving DecidableEq, Repr

def Widget.gx : Widget → ℤ
  | .button b => b.x
  | .scrollBar sb => sb.x
  | .slider sl => sl.x

def Widget.gy : Widget → ℤ
  | .button b => b.y
  | .scrollBar sb => sb.y
  | .slider sl => sl.y

def Widget.gwidth : Widget → ℤ
  | .button b => b.width
  | .scrollBar sb => sb.width
  | .slider sl => sl.width

def Widget.gheight : Widget → ℤ
  | .button b => b.height
  | .scrollBar sb => sb.height
  | .slider sl => sl.height

def Widget.visible : Widget → Bool
  | .button b => b.visible
  | .scrollBar sb => sb.visible
  | .slider sl => sl.visible

/-- Method `Widget.contains_point(x, y)`: rescale the sensor coordinates by the
terminal size read at call time (`term_x = int(x*cols/800)`,
`term_y = int(y*rows/480)`) and test `[x, x+w) × [y, y+h)` containment.
The `visible` flag is not consulted. -/
def Widget.containsPoint (w : Widget) (tx ty term_cols term_rows : ℤ) : Bool :=
  let term_x := pyInt ((tx * term_cols : ℤ) / (800 : ℚ))
  let term_y := pyInt ((ty * term_rows : ℤ) / (480 : ℚ))
  decide (w.gx ≤ term_x ∧ term_x < w.gx + w.gwidth ∧
          w.gy ≤ term_y ∧ term_y < w.gy + w.gheight)

/-- Per-class `handle_touch` dispatch. -/
def Widget.handleTouch (w : Widget) (e : Gesture) (tx ty term_cols term_rows : ℤ) :
    Widget × Bool :=
  match w with
  | .button b => let (b', c) := b.handleTouch e; (.button b', c)
  | .scrollBar sb => let (sb', c) := sb.handleTouch e ty term_rows; (.scrollBar sb', c)
  | .slider sl => let (sl', c) := sl.handleTouch e tx term_cols; (.slider sl', c)

/-- Core of `Screen.handle_touch`: iterate over `reversed(self.widgets)`
(carrying the original list position of each widget), hit-test each, and
dispatch to a containing widget, stopping at the first one whose
`handle_touch` returns `True`.  Returns the updated (still reversed,
indexed) widget list, the consumed flag, and the list of positions that
received a `handle_touch` call, in call order. -/
def screenDispatchAux (e : Gesture) (tx ty term_cols term_rows : ℤ) :
    List (ℕ × Widget) → List (ℕ × Widget) × Bool × List ℕ
  | [] => ([], false, [])
  | (i, w) :: rest =>
      if w.containsPoint tx ty term_cols term_rows then
        let (w', consumed) := w.handleTouch e tx ty term_cols term_rows
        if consumed then ((i, w') :: rest, true, [i])
        else
          let (rest', c, ds) := screenDispatchAux e tx ty term_cols term_rows rest
          ((i, w') :: rest', c, i :: ds)
      else
        let (rest', c, ds) := screenDispatchAux e tx ty term_cols term_rows rest
        ((i, w) :: rest', c, ds)

/-- Method `Screen.handle_touch(event_type, x, y)`: returns the updated widget
list, whether the gesture was consumed, and the dispatch trace (the
positions, in the screen's draw order, of the widgets whose
`handle_touch` was invoked, in invocation order). -/
def screenHandleTouch (ws : List Widget) (e : Gesture)
    (tx ty term_cols term_rows : ℤ) : List Widget × Bool × List ℕ :=
  let (rws, consumed, ds) := screenDispatchAux e tx ty term_cols term_rows ws.enum.reverse
  (rws.reverse.map Prod.snd, consumed, ds)

/-- Hit-testing in reverse draw order: the first containing widget of
`reversed(self.widgets)`, i.e. the topmost (last-drawn) one. -/
def topHit (ws : List Widget) (tx ty term_cols term_rows : ℤ) : Option (ℕ × Widget) :=
  ws.enum.reverse.find? (fun p => p.2.containsPoint tx ty term_cols term_rows)

/-! ## Hand-off screen teardown (`AirPlayScreen.exit`, `CameraScreen.exit`)

Both methods are textually identical up to field name:

    if self.uxplay_process and hasattr(self.uxplay_process, 'poll') \
        and self.uxplay_process.poll() is None:
        self.uxplay_process.terminate()
        self.uxplay_process = None
        os.system('clear')

The process handle is produced by `subprocess.run(cmd)` in
`launch_airplay` / `launch_camera`, which blocks until the child exits
and returns a `CompletedProcess` — an object with no `poll` attribute. -/

structure ProcHandle where
  /-- Truth of `hasattr(handle, 'poll')`: true for `Popen`, false for the
  `CompletedProcess` returned by `subprocess.run`. -/
  hasPoll : Bool
  /-- Truth of `poll() is None`: the child is still running. -/
  running : Bool
  deriving DecidableEq, Repr

/-- The handle stored by `launch_airplay`/`launch_camera`
(`subprocess.run` result: completed, no `poll` attribute). -/
def completedProcess : ProcHandle := { hasPoll := false, running := false }

inductive ProcSignal
  | terminate  -- proc.terminate()
  | waitBounded -- proc.wait(timeout=...)
  | kill       -- proc.kill()
  deriving DecidableEq, Repr

/-- Methods `AirPlayScreen.exit()` / `CameraScreen.exit()`: the successor handle
field and the signals sent to the collaborator process, in order. -/
def handoffExit (p : Option ProcHandle) : Option ProcHandle × List ProcSignal :=
  match p with
  | some h => if h.hasPoll ∧ h.running then (none, [.terminate]) else (some h, [])
  | none => (none, [])

/-! ## Shared arithmetic lemmas -/

theorem pyInt_bounds (q : ℚ) (a b : ℤ) (ha : (a : ℚ) ≤ q) (hb : q ≤ (b : ℚ)) :
    a ≤ pyInt q ∧ pyInt q ≤ b :=
  ⟨le_pyInt_of_le q a ha, pyInt_le_of_le q b hb⟩

theorem clamp01_nonneg (r : ℚ) : 0 ≤ max 0 (min 1 r) := le_max_left 0 _

theorem clamp01_le_one (r : ℚ) : max 0 (min 1 r) ≤ 1 :=
  max_le (by norm_num) (min_le_left 1 r)

/-- The product `max(0, min(1, r)) * m` lies in `[0, m]` for `0 ≤ m`. -/
theorem clamp01_mul_bounds (r m : ℚ) (hm : 0 ≤ m) :
    0 ≤ max 0 (min 1 r) * m ∧ max 0 (min 1 r) * m ≤ m := by
  constructor
  · exact mul_nonneg (clamp01_nonneg r) hm
  · calc max 0 (min 1 r) * m ≤ 1 * m :=
          mul_le_mul_of_nonneg_right (clamp01_le_one r) hm
      _ = m := one_mul m

/-! ## Claim C4: scroll position stays clamped -/

/-- A scroll operation: a touch event routed to `handle_touch`
(press/tap drive `_update_position` from the touch, release stops
dragging), or a programmatic `set_position`. -/
inductive ScrollOp
  | handle (e : Gesture) (touch_y term_rows : ℤ)
  | setPos (p : ℤ)
  deriving DecidableEq, Repr

def ScrollBar.applyOp (sb : ScrollBar) : ScrollOp → ScrollBar
  | .handle e ty trm => (sb.handleTouch e ty trm).1
  | .setPos p => sb.setPosition p

def ScrollBar.applyOps (sb : ScrollBar) (ops : List ScrollOp) : ScrollBar :=
  ops.foldl ScrollBar.applyOp sb

/-- Induction invariant: the constructor's clamping of
`visible_items ≤ total_items` plus the claimed position bounds. -/
def ScrollBar.Inv (sb : ScrollBar) : Prop :=
  sb.visible_items ≤ sb.total_items ∧
  0 ≤ sb.scroll_position ∧
  sb.scroll_position ≤ sb.total_items - sb.visible_items

theorem scrollInv_make (x y h t v : ℤ) : (ScrollBar.make x y h t v).Inv := by
  refine ⟨min_le_right _ _, le_refl 0, ?_⟩
  show (0 : ℤ) ≤ max 1 t - min v (max 1 t)
  omega

/-- Method `_update_position` writes `int(normalized * max_scroll)` for some
clamped `normalized ∈ [0, 1]` and leaves the item counts unchanged. -/
theorem updatePosition_shape (sb : ScrollBar) (ty trm : ℤ) :
    ∃ n : ℚ, 0 ≤ n ∧ n ≤ 1 ∧
      (sb.updatePosition ty trm).scroll_position =
        pyInt (n * ((sb.total_items - sb.visible_items : ℤ) : ℚ)) ∧
      (sb.updatePosition ty trm).total_items = sb.total_items ∧
      (sb.updatePosition ty trm).visible_items = sb.visible_items :=
  ⟨_, clamp01_nonneg _, clamp01_le_one _, rfl, rfl, rfl⟩

theorem scrollInv_updatePosition (sb : ScrollBar) (hsb : sb.Inv)
    (touch_y term_rows : ℤ) : (sb.updatePosition touch_y term_rows).Inv := by
  obtain ⟨hvt, _, _⟩ := hsb
  obtain ⟨n, hn0, hn1, hsp, hti, hvi⟩ := updatePosition_shape sb touch_y term_rows
  have hms : (0 : ℚ) ≤ ((sb.total_items - sb.visible_items : ℤ) : ℚ) := by
    exact_mod_cast sub_nonneg.mpr hvt
  have h0 : (0 : ℚ) ≤ n * ((sb.total_items - sb.visible_items : ℤ) : ℚ) :=
    mul_nonneg hn0 hms
  have h1 : n * ((sb.total_items - sb.visible_items : ℤ) : ℚ) ≤
      ((sb.total_items - sb.visible_items : ℤ) : ℚ) := by
    calc n * ((sb.total_items - sb.visible_items : ℤ) : ℚ)
        ≤ 1 * ((sb.total_items - sb.visible_items : ℤ) : ℚ) :=
          mul_le_mul_of_nonneg_right hn1 hms
      _ = ((sb.total_items - sb.visible_items : ℤ) : ℚ) := one_mul _
  have hb := pyInt_bounds (n * ((sb.total_items - sb.visible_items : ℤ) : ℚ))
    0 (sb.total_items - sb.visible_items) (by exact_mod_cast h0) h1
  exact ⟨by rw [hti, hvi]; exact hvt, by rw [hsp]; exact hb.1,
         by rw [hsp, hti, hvi]; exact hb.2⟩

theorem scrollInv_setPosition (sb : ScrollBar) (hsb : sb.Inv) (p : ℤ) :
    (sb.setPosition p).Inv := by
  obtain ⟨hvt, _, _⟩ := hsb
  refine ⟨hvt, ?_, ?_⟩
  · show (0 : ℤ) ≤ max 0 (min p (sb.total_items - sb.visible_items))
    omega
  · show max 0 (min p (sb.total_items - sb.visible_items)) ≤
      sb.total_items - sb.visible_items
    omega

theorem scrollInv_applyOp (sb : ScrollBar) (hsb : sb.Inv) (op : ScrollOp) :
    (sb.applyOp op).Inv := by
  cases op with
  | handle e ty trm =>
      cases e <;>
        first
          | exact scrollInv_updatePosition { sb with dragging := true } hsb ty trm
          | exact hsb
  | setPos p => exact scrollInv_setPosition sb hsb p

theorem scrollInv_applyOps (sb : ScrollBar) (hsb : sb.Inv) (ops : List ScrollOp) :
    (sb.applyOps ops).Inv := by
  induction ops generalizing sb with
  | nil => exact hsb
  | cons op rest ih => exact ih _ (scrollInv_applyOp sb hsb op)

/-- C4 (confirmed).  After every scroll operation — `ScrollBar`
construction, `set_position`, and a touch-driven `handle_touch` update —
`scroll_position` lies in `[0, max(0, total_items - visible_items)]`,
for every sequence of such operations from any construction. -/
theorem scroll_position_always_clamped (x y h t v : ℤ) (ops : List ScrollOp) :
    0 ≤ ((ScrollBar.make x y h t v).applyOps ops).scroll_position ∧
    ((ScrollBar.make x y h t v).applyOps ops).scroll_position ≤
      max 0 (((ScrollBar.make x y h t v).applyOps ops).total_items -
             ((ScrollBar.make x y h t v).applyOps ops).visible_items) := by
  have hinv := scrollInv_applyOps _ (scrollInv_make x y h t v) ops
  exact ⟨hinv.2.1, hinv.2.2.trans (le_max_right _ _)⟩

/-! ## Claim C10: slider value bounds -/

/-- Method `_update_value` writes `int(min_val + normalized * (max_val -
min_val))` for some clamped `normalized ∈ [0, 1]`, leaving the range
fields unchanged. -/
theorem updateValue_shape (sl : Slider) (tx tc : ℤ) :
    ∃ n : ℚ, 0 ≤ n ∧ n ≤ 1 ∧
      (sl.updateValue tx tc).value =
        pyInt ((sl.min_val : ℚ) + n * ((sl.max_val - sl.min_val : ℤ) : ℚ)) ∧
      (sl.updateValue tx tc).min_val = sl.min_val ∧
      (sl.updateValue tx tc).max_val = sl.max_val :=
  ⟨_, clamp01_nonneg _, clamp01_le_one _, rfl, rfl, rfl⟩

theorem updateValue_in_range (sl : Slider) (hm : sl.min_val < sl.max_val)
    (tx tc : ℤ) :
    sl.min_val ≤ (sl.updateValue tx tc).value ∧
    (sl.updateValue tx tc).value ≤ sl.max_val := by
  obtain ⟨n, hn0, hn1, hv, _, _⟩ := updateValue_shape sl tx tc
  have hms : (0 : ℚ) ≤ ((sl.max_val - sl.min_val : ℤ) : ℚ) := by
    exact_mod_cast sub_nonneg.mpr hm.le
  have h0 : (sl.min_val : ℚ) ≤ (sl.min_val : ℚ) + n * ((sl.max_val - sl.min_val : ℤ) : ℚ) :=
    le_add_of_nonneg_right (mul_nonneg hn0 hms)
  have h1 : (sl.min_val : ℚ) + n * ((sl.max_val - sl.min_val : ℤ) : ℚ) ≤ (sl.max_val : ℚ) := by
    have : n * ((sl.max_val - sl.min_val : ℤ) : ℚ) ≤ ((sl.max_val - sl.min_val : ℤ) : ℚ) := by
      calc n * ((sl.max_val - sl.min_val : ℤ) : ℚ)
          ≤ 1 * ((sl.max_val - sl.min_val : ℤ) : ℚ) :=
            mul_le_mul_of_nonneg_right hn1 hms
        _ = ((sl.max_val - sl.min_val : ℤ) : ℚ) := one_mul _
    push_cast at this ⊢
    linarith
  have hb := pyInt_bounds _ sl.min_val sl.max_val h0 h1
  rw [hv]
  exact hb

/-- C10 (amended, proved).  For every slider with `max_val > min_val`
and `width > 3`, a `handle_touch` that updates the value (`press` or
`tap`) leaves the value in `[min_val, max_val]` for every touch
coordinate and terminal size; consequently the value stays in range
across every `handle_touch` call whenever it was in range before.  (As
stated, the claim is false: `release` and unconsumed events do not
touch the value, so an out-of-range initial value survives them — see
the counterexample.) -/
theorem slider_value_clamped (sl : Slider) (hm : sl.min_val < sl.max_val)
    (_hw : 3 < sl.width) (e : Gesture) (tx tc : ℤ) :
    ((e = .press ∨ e = .tap) →
      (sl.handleTouch e tx tc).1.min_val ≤ (sl.handleTouch e tx tc).1.value ∧
      (sl.handleTouch e tx tc).1.value ≤ (sl.handleTouch e tx tc).1.max_val) ∧
    (sl.min_val ≤ sl.value ∧ sl.value ≤ sl.max_val →
      (sl.handleTouch e tx tc).1.min_val ≤ (sl.handleTouch e tx tc).1.value ∧
      (sl.handleTouch e tx tc).1.value ≤ (sl.handleTouch e tx tc).1.max_val) := by
  have hup := updateValue_in_range { sl with dragging := true } hm tx tc
  cases e <;>
    first
      | exact ⟨fun _ => hup, fun _ => hup⟩
      | exact ⟨fun h => by cases h <;> simp_all, fun h => h⟩

/-- C10 counterexample.  A slider constructed with `max_val > min_val`,
`width > 3` but an out-of-range initial `value = 200` (the constructor
does not clamp) still has `value = 200 > max_val = 100` after a
`handle_touch('release', ...)` call, refuting the claim that the value
lies in `[min_val, max_val]` after *every* `handle_touch` call. -/
theorem slider_value_not_clamped_after_release :
    (Slider.make 0 0 10 0 100 200).min_val < (Slider.make 0 0 10 0 100 200).max_val ∧
    3 < (Slider.make 0 0 10 0 100 200).width ∧
    ((Slider.make 0 0 10 0 100 200).handleTouch Gesture.release 5 80).1.max_val <
      ((Slider.make 0 0 10 0 100 200).handleTouch Gesture.release 5 80).1.value := by
  decide

/-- Witness for `slider_value_clamped` at a concrete slider and press. -/
theorem slider_value_clamped_witness :
    ((Slider.make 2 1 10 0 100 50).handleTouch Gesture.press 400 80).1.min_val ≤
      ((Slider.make 2 1 10 0 100 50).handleTouch Gesture.press 400 80).1.value ∧
    ((Slider.make 2 1 10 0 100 50).handleTouch Gesture.press 400 80).1.value ≤
      ((Slider.make 2 1 10 0 100 50).handleTouch Gesture.press 400 80).1.max_val :=
  (slider_value_clamped (Slider.make 2 1 10 0 100 50) (by decide) (by decide)
    Gesture.press 400 80).1 (Or.inl rfl)

/-! ## Claim C5: render writes -/

/-- C5 (confirmed).  `render()` performs no terminal write and changes
nothing when the dirty flag is clear; when dirty it performs exactly one
write — the single buffered full-frame string — copies the current
buffer into the reference buffer (every row of the canvas), leaves the
current buffer and the dimensions untouched, and clears the dirty
flag. -/
theorem render_spec (cv : ASCIICanvas) :
    (cv.dirty = false → cv.render = (cv, [])) ∧
    (cv.dirty = true →
      (cv.render).2 = [frameString cv] ∧
      (cv.render).1.dirty = false ∧
      (cv.render).1.buffer = cv.buffer ∧
      (cv.render).1.width = cv.width ∧
      (cv.render).1.height = cv.height ∧
      ∀ r c : ℤ, 0 ≤ r → r < cv.height →
        (cv.render).1.old_buffer r c = cv.buffer r c) := by
  constructor
  · intro hd
    simp [ASCIICanvas.render, hd]
  · intro hd
    refine ⟨?_, ?_, ?_, ?_, ?_, ?_⟩ <;>
      simp [ASCIICanvas.render, hd]
    intro r c h0 h1
    simp [h0, h1]

/-- Witness for `render_spec`: a concrete dirty 2×1 canvas renders with
exactly one write and comes back clean. -/
theorem render_spec_witness :
    (({ width := 2, height := 1, buffer := fun _ _ => 'A',
        old_buffer := fun _ _ => ' ', dirty := true } : ASCIICanvas).render).2 =
      [frameString { width := 2, height := 1, buffer := fun _ _ => 'A',
                     old_buffer := fun _ _ => ' ', dirty := true }] ∧
    (({ width := 2, height := 1, buffer := fun _ _ => 'A',
        old_buffer := fun _ _ => ' ', dirty := true } : ASCIICanvas).render).1.dirty = false :=
  ⟨((render_spec _).2 rfl).1, ((render_spec _).2 rfl).2.1⟩

/-! ## Claim C9: hand-off screen teardown -/

/-- C9 counterexample.  For a hand-off screen holding a handle that
reports itself still running (`poll` present, `poll() is None`),
`exit()` sends only a bare `terminate()`: there is no bounded wait and
no hard-kill escalation, refuting the claim that `exit()` terminates,
waits a bounded time, then escalates to a hard kill. -/
theorem handoff_exit_never_escalates :
    (handoffExit (some { hasPoll := true, running := true })).2 = [ProcSignal.terminate] ∧
    ProcSignal.waitBounded ∉ (handoffExit (some { hasPoll := true, running := true })).2 ∧
    ProcSignal.kill ∉ (handoffExit (some { hasPoll := true, running := true })).2 := by
  decide

/-- C9 (amended, proved).  `AirPlayScreen.exit()` / `CameraScreen.exit()`
send at most a single `terminate()` to the collaborator — never a
bounded wait and never a hard kill — and, because `launch_airplay` /
`launch_camera` store the `CompletedProcess` returned by the blocking
`subprocess.run` (which has no `poll` attribute), `exit()` on the handle
the code actually stores sends no signal at all.  (The
terminate/wait/kill escalation the claim describes lives in the wrapper
scripts' own `finally` blocks, not in the screens' `exit()`.) -/
theorem handoff_exit_at_most_terminate (p : Option ProcHandle) :
    ((handoffExit p).2 = [] ∨ (handoffExit p).2 = [ProcSignal.terminate]) ∧
    ProcSignal.waitBounded ∉ (handoffExit p).2 ∧
    ProcSignal.kill ∉ (handoffExit p).2 ∧
    (p = some completedProcess → (handoffExit p).2 = []) := by
  match p with
  | none => exact ⟨Or.inl rfl, by decide, by decide, fun _ => rfl⟩
  | some h =>
      by_cases hc : h.hasPoll ∧ h.running
      · refine ⟨Or.inr ?_, ?_, ?_, ?_⟩ <;>
          simp [handoffExit, hc, completedProcess]
        rintro rfl
        simp at hc
      · refine ⟨Or.inl ?_, ?_, ?_, ?_⟩ <;>
          simp [handoffExit, hc]

/-- Witness for `handoff_exit_at_most_terminate` at the handle the code
actually stores (a `CompletedProcess`): no signal is sent. -/
theorem handoff_exit_witness :
    (handoffExit (some completedProcess)).2 = [] :=
  (handoff_exit_at_most_terminate (some completedProcess)).2.2.2 rfl

/-! ## Claims C1-C3: gesture classification -/

theorem quickGesture_cases (dx dy : ℤ) :
    quickGesture dx dy = .tap ∨ (quickGesture dx dy).isSwipe = true := by
  unfold quickGesture
  split
  · split <;> split <;> simp [Gesture.isSwipe]
  · exact Or.inl rfl

theorem quickGesture_tap (dx dy : ℤ) (hdx : dx.natAbs ≤ 80) (hdy : dy.natAbs ≤ 48) :
    quickGesture dx dy = .tap := by
  unfold quickGesture
  rw [if_neg]
  omega

/-- C1 (amended, proved).  At a contact-up (negative tracking id) the
classifier emits exactly one of tap / swipe / release — the single
`dt < 0.2` quick branch picking swipe-or-tap, everything else being
`release` — *possibly preceded in the same contact-up by an additional
`double_tap`*; a contact for which no position (or no swipe start) was
ever recorded emits nothing.  (As stated the claim is false on two
counts: the decision order has no long-press branch at all, and the
contact-up that completes a double tap emits two gestures, not exactly
one — see the counterexample.) -/
theorem contact_up_emissions (s : THState) (v : ℤ) (t : ℚ) (hv : v < 0) :
    ((s.x = none ∨ s.y = none) → (touchStep s (.tracking v t)).2 = []) ∧
    (∀ xv yv, s.x = some xv → s.y = some yv →
      (s.swipe_start = none → (touchStep s (.tracking v t)).2 = []) ∧
      (∀ sx sy st, s.swipe_start = some (sx, sy, st) →
        ∃ g : Gesture, (g = .tap ∨ g = .release ∨ g.isSwipe = true) ∧
          ((touchStep s (.tracking v t)).2 = [(g, xv, yv)] ∨
           (touchStep s (.tracking v t)).2 =
             [(.double_tap, xv, yv), (g, xv, yv)]))) := by
  have hv' : ¬ (0 ≤ v) := by omega
  constructor
  · rintro (hx | hy)
    · cases hsy : s.y <;> simp [touchStep, hv', hx, hsy]
    · cases hsx : s.x <;> simp [touchStep, hv', hsx, hy]
  · intro xv yv hx hy
    constructor
    · intro hss
      simp [touchStep, hv', hx, hy, hss]
    · intro sx sy st hss
      by_cases hdt : t - st < 0.2
      · by_cases hdb : t - s.last_tap_time < 0.5 ∧ s.tap_count + 1 ≥ 2
        · refine ⟨quickGesture (xv - sx) (yv - sy), ?_, Or.inr ?_⟩
          · rcases quickGesture_cases (xv - sx) (yv - sy) with h | h
            · exact Or.inl h
            · exact Or.inr (Or.inr h)
          · simp [touchStep, hv', hx, hy, hss, hdt, hdb.1, hdb.2]
        · refine ⟨quickGesture (xv - sx) (yv - sy), ?_, Or.inl ?_⟩
          · rcases quickGesture_cases (xv - sx) (yv - sy) with h | h
            · exact Or.inl h
            · exact Or.inr (Or.inr h)
          · by_cases hw : t - s.last_tap_time < 0.5
            · have hc : ¬ (s.tap_count + 1 ≥ 2) := fun hcc => hdb ⟨hw, hcc⟩
              simp [touchStep, hv', hx, hy, hss, hdt, hw, hc]
            · simp [touchStep, hv', hx, hy, hss, hdt, hw]
      · refine ⟨.release, Or.inr (Or.inl rfl), Or.inl ?_⟩
        simp [touchStep, hv', hx, hy, hss, hdt]

/-- C1 counterexample.  Two quick taps in succession (contact-down at
t = 1000 s, up at 1000.1 s, down again at 1000.3 s, up at 1000.4 s, no
movement): the second contact-up emits *two* gestures —
`double_tap` followed by `tap` — refuting "emits exactly one gesture at
contact-up". -/
theorem second_quick_tap_emits_two_gestures :
    (touchStep (touchRun THState.init
        [TouchEvent.absX 100, TouchEvent.absY 100,
         TouchEvent.tracking 1 1000, TouchEvent.tracking (-1) (1000 + 1/10),
         TouchEvent.tracking 1 (1000 + 3/10)]).1
      (TouchEvent.tracking (-1) (1000 + 4/10))).2 =
      [(Gesture.double_tap, 100, 100), (Gesture.tap, 100, 100)] ∧
    ((touchStep (touchRun THState.init
        [TouchEvent.absX 100, TouchEvent.absY 100,
         TouchEvent.tracking 1 1000, TouchEvent.tracking (-1) (1000 + 1/10),
         TouchEvent.tracking 1 (1000 + 3/10)]).1
      (TouchEvent.tracking (-1) (1000 + 4/10))).2).length ≠ 1 := by
  refine ⟨?_, ?_⟩ <;> norm_num [touchRun, touchStep, THState.init, quickGesture]

/-- Witness for `contact_up_emissions`: a contact-up with positions but
no recorded swipe start emits nothing. -/
theorem contact_up_emissions_witness :
    (touchStep { x := some 5, y := some 7, touching := true, swipe_start := none,
                 last_tap_time := 0, tap_count := 0, current_touch := none }
      (TouchEvent.tracking (-1) 1000)).2 = [] :=
  ((contact_up_emissions _ (-1) 1000 (by decide)).2 5 7 rfl rfl).1 rfl

/-- C2 counterexample.  A contact with `dx = 5 < 30`, `dy = 3 < 30` and
`duration = 0.25 s < 0.3 s` and no prior tap emits `release`, not `Tap`:
the code's quick-tap window is `dt < 0.2`, not the claimed
`duration < 0.3`. -/
theorem small_quarter_second_contact_emits_release :
    (touchStep (touchRun THState.init
        [TouchEvent.absX 0, TouchEvent.absY 0, TouchEvent.tracking 1 1000,
         TouchEvent.absX 5, TouchEvent.absY 3]).1
      (TouchEvent.tracking (-1) (1000 + 1/4))).2 = [(Gesture.release, 5, 3)] := by
  norm_num [touchRun, touchStep, THState.init]

/-- C2 (amended, proved).  For a contact with `|dx| ≤ 80`, `|dy| ≤ 48`
and `duration < 0.2 s`, the classifier emits `Tap` — and when a quick
tap within the 0.5 s window brings the tap counter to 2 it emits
`DoubleTap` (resetting the counter to 0) immediately *before* that
`Tap`, rather than instead of it.  (As stated the claim fails on the
`0.3 s` bound and on `DoubleTap` replacing `Tap` — see the
counterexample.) -/
theorem quick_tap_classification (s : THState) (xv yv sx sy : ℤ) (st t : ℚ)
    (hx : s.x = some xv) (hy : s.y = some yv)
    (hss : s.swipe_start = some (sx, sy, st))
    (hdx : (xv - sx).natAbs ≤ 80) (hdy : (yv - sy).natAbs ≤ 48)
    (hdt : t - st < 0.2) :
    (¬ (t - s.last_tap_time < 0.5) ∨ s.tap_count + 1 < 2 →
       (touchStep s (.tracking (-1) t)).2 = [(Gesture.tap, xv, yv)]) ∧
    (t - s.last_tap_time < 0.5 → s.tap_count + 1 ≥ 2 →
       (touchStep s (.tracking (-1) t)).2 =
         [(Gesture.double_tap, xv, yv), (Gesture.tap, xv, yv)] ∧
       (touchStep s (.tracking (-1) t)).1.tap_count = 0) := by
  have hv' : ¬ ((0 : ℤ) ≤ -1) := by decide
  have hg := quickGesture_tap (xv - sx) (yv - sy) hdx hdy
  constructor
  · rintro (hw | hc)
    · simp [touchStep, hv', hx, hy, hss, hdt, hw, hg]
    · have hc' : ¬ (s.tap_count + 1 ≥ 2) := by omega
      by_cases hw : t - s.last_tap_time < 0.5
      · simp [touchStep, hv', hx, hy, hss, hdt, hw, hc', hg]
      · simp [touchStep, hv', hx, hy, hss, hdt, hw, hg]
  · intro hw hc
    constructor <;> simp [touchStep, hv', hx, hy, hss, hdt, hw, hc, hg]

/-- Witness for `quick_tap_classification`: a second quick tap 0.1 s
after the first emits `double_tap` then `tap` and resets the counter. -/
theorem quick_tap_classification_witness :
    (touchStep { x := some 5, y := some 3, touching := true,
                 swipe_start := some (0, 0, 1000), last_tap_time := 1000,
                 tap_count := 1, current_touch := none }
      (TouchEvent.tracking (-1) (1000 + 1/10))).2 =
      [(Gesture.double_tap, 5, 3), (Gesture.tap, 5, 3)] ∧
    (touchStep { x := some 5, y := some 3, touching := true,
                 swipe_start := some (0, 0, 1000), last_tap_time := 1000,
                 tap_count := 1, current_touch := none }
      (TouchEvent.tracking (-1) (1000 + 1/10))).1.tap_count = 0 :=
  (quick_tap_classification _ 5 3 0 0 1000 (1000 + 1/10) rfl rfl rfl
    (by decide) (by decide) (by norm_num)).2 (by norm_num) (by decide)

/-- C3 counterexample.  A 3-second motionless contact (`duration = 3.0 >
2.0`, `dx = dy = 0 < 20`) makes the core classifier of `touch_ui.py`
emit `release`: the claim predicts `LongPress`, but `_touch_loop` has no
long-press branch and its gesture vocabulary (the `Gesture` type) has no
long-press at all. -/
theorem long_motionless_contact_emits_release :
    (touchStep (touchRun THState.init
        [TouchEvent.absX 0, TouchEvent.absY 0, TouchEvent.tracking 1 1000]).1
      (TouchEvent.tracking (-1) 1003)).2 = [(Gesture.release, 0, 0)] := by
  norm_num [touchRun, touchStep, THState.init]

/-- C3 (amended, proved).  The long-press rule holds in the uxplay
wrapper's classifier (one of the claim's two cited sources): for every
contact with `duration > 2.0 s`, `|dx| < 20` and `|dy| < 20`, the
wrapper detects a long press and exits, *regardless of any tap history*
(`tap_count` and `last_tap_time` are arbitrary here).  The core
`touch_ui.py` classifier, by contrast, has no long-press branch and
emits `release` for such a contact — see the counterexample. -/
theorem uxplay_long_press_exits (s : UXState) (sx sy lx ly : ℤ) (t : ℚ)
    (hex : s.exited = false) (hcr : s.crashed = false)
    (htc : s.touching = true)
    (hsx : s.start_x = some sx) (hsy : s.start_y = some sy)
    (hlx : s.last_x = some lx) (hly : s.last_y = some ly)
    (hdur : t - s.start_time > 2)
    (hdx : (lx - sx).natAbs < 20) (hdy : (ly - sy).natAbs < 20) :
    (uxStep s (.btn false t)).2 = [UXAction.longPressExit] ∧
    (uxStep s (.btn false t)).1.exited = true := by
  have h1 : ¬ ((lx - sx).natAbs < 30 ∧ (ly - sy).natAbs < 30 ∧
      t - s.start_time < 0.3) := by
    rintro ⟨-, -, h⟩
    have h3 : (0.3 : ℚ) < 2 := by norm_num
    linarith
  constructor <;>
    simp [uxStep, hex, hcr, htc, hsx, hsy, hlx, hly, h1, hdur, hdx, hdy]

/-- Witness for `uxplay_long_press_exits`: a concrete 3-second press
with tap history (`tap_count = 1`) still exits via long press. -/
theorem uxplay_long_press_exits_witness :
    (uxStep { touching := true, start_x := some 10, start_y := some 10,
              last_x := some 15, last_y := some 12, start_time := 1000,
              last_tap_time := 999, tap_count := 1, exited := false,
              crashed := false }
      (UXEvent.btn false 1003)).2 = [UXAction.longPressExit] ∧
    (uxStep { touching := true, start_x := some 10, start_y := some 10,
              last_x := some 15, last_y := some 12, start_time := 1000,
              last_tap_time := 999, tap_count := 1, exited := false,
              crashed := false }
      (UXEvent.btn false 1003)).1.exited = true :=
  uxplay_long_press_exits _ 10 10 15 12 1003 rfl rfl rfl rfl rfl rfl rfl
    (by norm_num) (by decide) (by decide)

/-! ## Claim C7: silent clipping of draw calls -/

theorem mem_intRange {k a b : ℤ} : k ∈ intRange a b ↔ a ≤ k ∧ k < b := by
  unfold intRange
  rw [List.mem_map]
  constructor
  · rintro ⟨j, hj, rfl⟩
    have hjr := List.mem_range.mp hj
    omega
  · rintro ⟨h1, h2⟩
    exact ⟨(k - a).toNat, List.mem_range.mpr (by omega), by omega⟩

theorem mem_ite_nil {α : Type} {P : Prop} [Decidable P] {a : α} {l : List α} :
    a ∈ (if P then l else []) ↔ P ∧ a ∈ l := by
  split <;> simp_all

theorem writeCell_outside (cv : ASCIICanvas) (y x : ℤ) (ch : Char) (r c : ℤ)
    (h : ¬ (r = y ∧ c = x)) : (cv.writeCell y x ch).buffer r c = cv.buffer r c :=
  if_neg h

/-- Applying a list of in-bounds cell writes never changes the
dimensions or any out-of-grid cell. -/
theorem applyWrites_frame (ws : List (ℤ × ℤ × Char)) :
    ∀ cv : ASCIICanvas,
      (∀ p ∈ ws, 0 ≤ p.1 ∧ p.1 < cv.height ∧ 0 ≤ p.2.1 ∧ p.2.1 < cv.width) →
      (cv.applyWrites ws).width = cv.width ∧
      (cv.applyWrites ws).height = cv.height ∧
      ∀ r c : ℤ, (r < 0 ∨ cv.height ≤ r ∨ c < 0 ∨ cv.width ≤ c) →
        (cv.applyWrites ws).buffer r c = cv.buffer r c := by
  induction ws with
  | nil => exact fun cv _ => ⟨rfl, rfl, fun _ _ _ => rfl⟩
  | cons p rest ih =>
      intro cv hin
      have hp := hin p (List.mem_cons_self p rest)
      have hrest : ∀ q ∈ rest, 0 ≤ q.1 ∧ q.1 < (cv.writeCell p.1 p.2.1 p.2.2).height ∧
          0 ≤ q.2.1 ∧ q.2.1 < (cv.writeCell p.1 p.2.1 p.2.2).width :=
        fun q hq => hin q (List.mem_cons_of_mem p hq)
      have heq : cv.applyWrites (p :: rest) =
          (cv.writeCell p.1 p.2.1 p.2.2).applyWrites rest := rfl
      obtain ⟨hw, hh, hb⟩ := ih (cv.writeCell p.1 p.2.1 p.2.2) hrest
      refine ⟨heq ▸ hw, heq ▸ hh, ?_⟩
      intro r c hout
      rw [heq, hb r c hout, writeCell_outside]
      rintro ⟨rfl, rfl⟩
      rcases hout with h | h | h | h <;> omega

/-- Every write issued by `draw_box` targets an in-grid cell (each
source assignment sits under a bounds guard). -/
theorem boxWrites_bounds (W H x y w h : ℤ) (style : BoxStyle) (filled : Bool) :
    ∀ p ∈ boxWrites W H x y w h style filled,
      0 ≤ p.1 ∧ p.1 < H ∧ 0 ≤ p.2.1 ∧ p.2.1 < W := by
  intro p hp
  rcases h6 : boxChars style with ⟨c0, c1, c2, c3, c4, c5⟩
  rw [boxWrites, h6] at hp
  rw [List.mem_append, List.mem_append, List.mem_append] at hp
  rcases hp with ((hp | hp) | hp) | hp
  · -- background fill
    rw [mem_ite_nil] at hp
    obtain ⟨-, hp⟩ := hp
    rw [List.mem_flatMap] at hp
    obtain ⟨row, hrow, hp⟩ := hp
    rw [List.mem_map] at hp
    obtain ⟨col, hcol, rfl⟩ := hp
    rw [mem_intRange] at hrow hcol
    dsimp only
    omega
  · -- top line
    rw [mem_ite_nil] at hp
    obtain ⟨hy, hp⟩ := hp
    rw [List.mem_append, List.mem_append] at hp
    rcases hp with (hp | hp) | hp
    · rw [mem_ite_nil, List.mem_singleton] at hp
      obtain ⟨hx, rfl⟩ := hp
      dsimp only
      omega
    · rw [List.mem_filterMap] at hp
      obtain ⟨i, -, hp⟩ := hp
      rw [Option.ite_none_right_eq_some, Option.some.injEq] at hp
      obtain ⟨hxi, rfl⟩ := hp
      dsimp only
      omega
    · rw [mem_ite_nil, List.mem_singleton] at hp
      obtain ⟨hx, rfl⟩ := hp
      dsimp only
      omega
  · -- sides
    rw [List.mem_flatMap] at hp
    obtain ⟨i, -, hp⟩ := hp
    rw [mem_ite_nil] at hp
    obtain ⟨hyi, hp⟩ := hp
    rw [List.mem_append] at hp
    rcases hp with hp | hp <;>
    · rw [mem_ite_nil, List.mem_singleton] at hp
      obtain ⟨hx, rfl⟩ := hp
      dsimp only
      omega
  · -- bottom line
    rw [mem_ite_nil] at hp
    obtain ⟨hy, hp⟩ := hp
    rw [List.mem_append, List.mem_append] at hp
    rcases hp with (hp | hp) | hp
    · rw [mem_ite_nil, List.mem_singleton] at hp
      obtain ⟨hx, rfl⟩ := hp
      dsimp only
      omega
    · rw [List.mem_filterMap] at hp
      obtain ⟨i, -, hp⟩ := hp
      rw [Option.ite_none_right_eq_some, Option.some.injEq] at hp
      obtain ⟨hxi, rfl⟩ := hp
      dsimp only
      omega
    · rw [mem_ite_nil, List.mem_singleton] at hp
      obtain ⟨hx, rfl⟩ := hp
      dsimp only
      omega

/-- Frame preservation for the `draw_text` character loop when the row
is in range. -/
theorem drawTextLoop_frame (x y : ℤ) (clip : Bool) :
    ∀ (l : List (ℕ × Char)) (cv : ASCIICanvas), 0 ≤ y → y < cv.height →
      (drawTextLoop cv x y clip l).width = cv.width ∧
      (drawTextLoop cv x y clip l).height = cv.height ∧
      ∀ r c : ℤ, (r < 0 ∨ cv.height ≤ r ∨ c < 0 ∨ cv.width ≤ c) →
        (drawTextLoop cv x y clip l).buffer r c = cv.buffer r c := by
  intro l
  induction l with
  | nil => exact fun cv _ _ => ⟨rfl, rfl, fun _ _ _ => rfl⟩
  | cons ic rest ih =>
      intro cv hy0 hy1
      obtain ⟨i, ch⟩ := ic
      by_cases hneg : x + (i : ℤ) < 0
      · simpa [drawTextLoop, hneg] using ih cv hy0 hy1
      · by_cases hover : x + (i : ℤ) ≥ cv.width
        · cases clip with
          | true => simp [drawTextLoop, hneg, hover]
          | false => simpa [drawTextLoop, hneg, hover] using ih cv hy0 hy1
        · have hrec := ih (cv.writeCell y (x + (i : ℤ)) ch) hy0 hy1
          refine ⟨?_, ?_, ?_⟩
          · simpa [drawTextLoop, hneg, hover] using hrec.1
          · simpa [drawTextLoop, hneg, hover] using hrec.2.1
          · intro r c hout
            have hb := hrec.2.2 r c hout
            have hw : (cv.writeCell y (x + (i : ℤ)) ch).buffer r c = cv.buffer r c := by
              apply writeCell_outside
              rintro ⟨rfl, rfl⟩
              rcases hout with h | h | h | h <;> omega
            simp only [drawTextLoop, if_neg hneg]
            rw [if_neg (by omega)]
            rw [hb, hw]

/-- C7 (confirmed).  For all integer coordinates and sizes, `draw_text`
and `draw_box` clip silently: both are total (every source assignment is
guarded in-bounds, so no `IndexError` can be raised or propagated) and
no cell outside the `width × height` grid is ever written — the buffer
outside the grid, and the dimensions, are unchanged. -/
theorem draw_calls_clip_silently (cv : ASCIICanvas) (x y : ℤ) (text : List Char)
    (clip : Bool) (x2 y2 w2 h2 : ℤ) (style : BoxStyle) (filled : Bool)
    (r c : ℤ) (hout : r < 0 ∨ cv.height ≤ r ∨ c < 0 ∨ cv.width ≤ c) :
    (cv.drawText x y text clip).buffer r c = cv.buffer r c ∧
    (cv.drawText x y text clip).width = cv.width ∧
    (cv.drawText x y text clip).height = cv.height ∧
    (cv.drawBox x2 y2 w2 h2 style filled).buffer r c = cv.buffer r c ∧
    (cv.drawBox x2 y2 w2 h2 style filled).width = cv.width ∧
    (cv.drawBox x2 y2 w2 h2 style filled).height = cv.height := by
  have hbox := applyWrites_frame (boxWrites cv.width cv.height x2 y2 w2 h2 style filled)
    cv (boxWrites_bounds cv.width cv.height x2 y2 w2 h2 style filled)
  have hboxgoal : (cv.drawBox x2 y2 w2 h2 style filled).buffer r c = cv.buffer r c ∧
      (cv.drawBox x2 y2 w2 h2 style filled).width = cv.width ∧
      (cv.drawBox x2 y2 w2 h2 style filled).height = cv.height := by
    refine ⟨?_, ?_, ?_⟩ <;>
      simp [ASCIICanvas.drawBox, hbox.1, hbox.2.1, hbox.2.2 r c hout]
  by_cases hyr : y < 0 ∨ y ≥ cv.height
  · have htext : cv.drawText x y text clip = cv := by
      simp [ASCIICanvas.drawText, hyr]
    exact ⟨by rw [htext], by rw [htext], by rw [htext],
           hboxgoal.1, hboxgoal.2.1, hboxgoal.2.2⟩
  · have hy0 : 0 ≤ y := by omega
    have hy1 : y < cv.height := by
      rcases not_or.mp hyr with ⟨_, h2⟩
      omega
    have hloop := drawTextLoop_frame x y clip text.enum cv hy0 hy1
    have htext : cv.drawText x y text clip =
        { drawTextLoop cv x y clip text.enum with dirty := true } := by
      simp [ASCIICanvas.drawText, hyr]
    refine ⟨?_, ?_, ?_, hboxgoal.1, hboxgoal.2.1, hboxgoal.2.2⟩ <;>
      rw [htext]
    · exact hloop.2.2 r c hout
    · exact hloop.1
    · exact hloop.2.1

/-- Witness for `draw_calls_clip_silently`: a concrete 3×2 canvas, a
partly off-grid text and box, and the out-of-grid cell (5, 0). -/
theorem draw_calls_clip_silently_witness :
    ((({ width := 3, height := 2, buffer := fun _ _ => ' ',
         old_buffer := fun _ _ => ' ', dirty := false } : ASCIICanvas).drawText
        (-1) 0 ['h', 'i'] true).buffer 5 0 =
      (({ width := 3, height := 2, buffer := fun _ _ => ' ',
          old_buffer := fun _ _ => ' ', dirty := false } : ASCIICanvas)).buffer 5 0) ∧
    ((({ width := 3, height := 2, buffer := fun _ _ => ' ',
         old_buffer := fun _ _ => ' ', dirty := false } : ASCIICanvas).drawBox
        (-2) (-1) 10 10 BoxStyle.single true).buffer 5 0 =
      (({ width := 3, height := 2, buffer := fun _ _ => ' ',
          old_buffer := fun _ _ => ' ', dirty := false } : ASCIICanvas)).buffer 5 0) := by
  have h := draw_calls_clip_silently
    { width := 3, height := 2, buffer := fun _ _ => ' ',
      old_buffer := fun _ _ => ' ', dirty := false }
    (-1) 0 ['h', 'i'] true (-2) (-1) 10 10 BoxStyle.single true 5 0
    (by norm_num)
  exact ⟨h.1, h.2.2.2.1⟩

/-! ## Claims C6 and C8: hit-testing and dispatch -/

/-- Overwrite a widget's `visible` flag (plain attribute assignment). -/
def Widget.setVisible : Widget → Bool → Widget
  | .button b, v => .button { b with visible := v }
  | .scrollBar sb, v => .scrollBar { sb with visible := v }
  | .slider sl, v => .slider { sl with visible := v }

theorem containsPoint_setVisible (w : Widget) (v : Bool) (tx ty tc trm : ℤ) :
    (w.setVisible v).containsPoint tx ty tc trm = w.containsPoint tx ty tc trm := by
  cases w <;> rfl

theorem handleTouch_setVisible (w : Widget) (v : Bool) (e : Gesture)
    (tx ty tc trm : ℤ) :
    (w.setVisible v).handleTouch e tx ty tc trm =
      ((w.handleTouch e tx ty tc trm).1.setVisible v,
       (w.handleTouch e tx ty tc trm).2) := by
  cases w <;> cases e <;> rfl

theorem dispatchAux_setVisible (e : Gesture) (tx ty tc trm : ℤ) (v : Bool) :
    ∀ l : List (ℕ × Widget),
      screenDispatchAux e tx ty tc trm (l.map (fun p => (p.1, p.2.setVisible v))) =
        ((screenDispatchAux e tx ty tc trm l).1.map (fun p => (p.1, p.2.setVisible v)),
         (screenDispatchAux e tx ty tc trm l).2.1,
         (screenDispatchAux e tx ty tc trm l).2.2) := by
  intro l
  induction l with
  | nil => rfl
  | cons p rest ih =>
      obtain ⟨i, w⟩ := p
      by_cases hc : w.containsPoint tx ty tc trm
      · by_cases hcons : (w.handleTouch e tx ty tc trm).2
        · simp [screenDispatchAux, containsPoint_setVisible, handleTouch_setVisible,
            hc, hcons]
        · simp [screenDispatchAux, containsPoint_setVisible, handleTouch_setVisible,
            hc, hcons, ih]
      · simp [screenDispatchAux, containsPoint_setVisible, hc, ih]

/-- C6 (amended, proved).  The `visible` flag plays no role in
`Screen.handle_touch`: overwriting every widget's flag with any value
changes neither the consumed result, nor the dispatch trace (which
widgets get `handle_touch` calls, in which order), nor the remaining
widget state (equal up to the overwritten flag).  In particular an
invisible widget is hit-tested and receives gestures exactly like a
visible one; visibility only suppresses drawing.  (The claim as stated
— invisible widgets never participate — is refuted by the
counterexample below.) -/
theorem screen_dispatch_ignores_visibility (ws : List Widget) (v : Bool)
    (e : Gesture) (tx ty tc trm : ℤ) :
    (screenHandleTouch (ws.map (fun w => w.setVisible v)) e tx ty tc trm).2.1 =
      (screenHandleTouch ws e tx ty tc trm).2.1 ∧
    (screenHandleTouch (ws.map (fun w => w.setVisible v)) e tx ty tc trm).2.2 =
      (screenHandleTouch ws e tx ty tc trm).2.2 ∧
    (screenHandleTouch (ws.map (fun w => w.setVisible v)) e tx ty tc trm).1 =
      (screenHandleTouch ws e tx ty tc trm).1.map (fun w => w.setVisible v) := by
  have henum : (ws.map (fun w => w.setVisible v)).enum.reverse =
      ws.enum.reverse.map (fun p => (p.1, p.2.setVisible v)) := by
    rw [List.enum_map]
    rw [List.map_reverse]
    rfl
  refine ⟨?_, ?_, ?_⟩ <;>
    simp only [screenHandleTouch, henum,
      dispatchAux_setVisible e tx ty tc trm v ws.enum.reverse]
  simp [List.map_reverse, List.map_map, Function.comp]

/-- An invisible button at cells `[0,10) × [0,3)` (a `Button` whose
`visible` attribute has been set to `False`). -/
def hiddenButton : Button :=
  { x := 0, y := 0, width := 10, height := 3, visible := false, pressed := false }

/-- C6 counterexample.  A screen holding only `hiddenButton`, with a
press at sensor (0, 0) on an 80×24 terminal: the invisible button *is*
hit-tested and dispatched to (dispatch trace `[0]`), it consumes the
gesture, and its pressed flag flips — refuting the claim that a widget
with `visible = false` never participates in hit-testing or gesture
handling (`contains_point` and `handle_touch` never read `visible`). -/
theorem invisible_widget_consumes_gesture :
    (Widget.button hiddenButton).visible = false ∧
    (screenHandleTouch [Widget.button hiddenButton] Gesture.press 0 0 80 24).2.2 = [0] ∧
    (screenHandleTouch [Widget.button hiddenButton] Gesture.press 0 0 80 24).2.1 = true ∧
    (screenHandleTouch [Widget.button hiddenButton] Gesture.press 0 0 80 24).1 =
      [Widget.button { hiddenButton with pressed := true }] := by
  refine ⟨rfl, ?_, ?_, ?_⟩ <;>
    norm_num [screenHandleTouch, screenDispatchAux, Widget.containsPoint,
      Widget.handleTouch, Button.handleTouch, Widget.gx, Widget.gy,
      Widget.gwidth, Widget.gheight, pyInt, List.enum, List.enumFrom, hiddenButton]

/-- The trace head of the dispatch loop is the first containing entry of
the processed (reversed) list. -/
theorem dispatchAux_head_eq_find (e : Gesture) (tx ty tc trm : ℤ) :
    ∀ l : List (ℕ × Widget),
      (screenDispatchAux e tx ty tc trm l).2.2.head? =
        (l.find? (fun p => p.2.containsPoint tx ty tc trm)).map Prod.fst := by
  intro l
  induction l with
  | nil => rfl
  | cons p rest ih =>
      obtain ⟨i, w⟩ := p
      by_cases hc : w.containsPoint tx ty tc trm
      · by_cases hcons : (w.handleTouch e tx ty tc trm).2
        · simp [screenDispatchAux, hc, hcons]
        · simp [screenDispatchAux, hc, hcons]
      · simp [screenDispatchAux, hc, ih]

/-- C8 (confirmed).  For a gesture at a point contained in several
overlapping widgets, all of them visible, `Screen.handle_touch` tests
the widgets in reverse draw order, and the topmost (last-drawn)
containing widget — the one hit-testing in reverse order finds first —
is the first to receive the gesture (head of the dispatch trace). -/
theorem topmost_widget_gets_gesture (ws : List Widget) (e : Gesture)
    (tx ty tc trm : ℤ) (i : ℕ) (w : Widget)
    (_hvis : ∀ u ∈ ws, u.containsPoint tx ty tc trm = true → u.visible = true)
    (_hsev : 2 ≤ (ws.filter (fun u => u.containsPoint tx ty tc trm)).length)
    (htop : topHit ws tx ty tc trm = some (i, w)) :
    (screenHandleTouch ws e tx ty tc trm).2.2.head? = some i := by
  have h := dispatchAux_head_eq_find e tx ty tc trm ws.enum.reverse
  unfold topHit at htop
  show (screenDispatchAux e tx ty tc trm ws.enum.reverse).2.2.head? = some i
  rw [h, htop]
  rfl

/-- Lower of two overlapping visible buttons (drawn first). -/
def lowerButton : Button :=
  { x := 0, y := 0, width := 10, height := 3, visible := true, pressed := false }

/-- Upper of two overlapping visible buttons (drawn last, topmost). -/
def upperButton : Button :=
  { x := 1, y := 0, width := 4, height := 2, visible := true, pressed := false }

/-- Witness for `topmost_widget_gets_gesture`: a tap at sensor (20, 0)
(cell (2, 0) on an 80×24 terminal) lies in both overlapping visible
buttons; the topmost (position 1, drawn last) receives it first. -/
theorem topmost_widget_gets_gesture_witness :
    (screenHandleTouch [Widget.button lowerButton, Widget.button upperButton]
      Gesture.tap 20 0 80 24).2.2.head? = some 1 :=
  topmost_widget_gets_gesture
    [Widget.button lowerButton, Widget.button upperButton]
    Gesture.tap 20 0 80 24 1 (Widget.button upperButton)
    (by intro u hu _; fin_cases hu <;> rfl)
    (by norm_num [List.filter, Widget.containsPoint, Widget.gx, Widget.gy,
      Widget.gwidth, Widget.gheight, pyInt, lowerButton, upperButton])
    (by norm_num [topHit, List.enum, List.enumFrom, Widget.containsPoint,
      Widget.gx, Widget.gy, Widget.gwidth, Widget.gheight, pyInt,
      lowerButton, upperButton])
